import Mathlib

set_option maxRecDepth 16384

/-!
Verification development for the skill-scorecard repository.

The JavaScript sources are shallowly embedded as pure Lean functions:

* `src/cli.js` (src/unnamed/part_000): exit-code derivation from the grade;
* `src/scorer.js` (src/unnamed/part_001): `calculateGrade`,
  `generateRecommendations`, `scoreSkill`;
* `src/analyzers/security.js` (src/unnamed/part_002): `checkClawdex`,
  `runCiscoScanner`, `analyzeSecurity`;
* `src/analyzers/docs.js` (src/unnamed/part_003): `analyzeDocs` and its
  section-detection helpers;
* `src/analyzers/maintenance.js`: `analyzeMaintenance` and the JavaScript
  `Date` calendar arithmetic it relies on.

I/O (HTTP fetch, subprocess execution, file reads, `git log`) is modelled by
passing the observed outcome of each external call as an explicit argument;
everything downstream of those outcomes is translated statement by statement
from the source.  JavaScript objects whose fields are present on some code
paths and absent on others are modelled with `Option` fields, and JavaScript
truthiness (`undefined`, `0` and `""` are falsy) is rendered explicitly at
each use site.
-/

namespace SkillScorecard

/-- Result object of one analyzer as stored in the breakdown.  A successful
analyzer returns `{score, max, details}`; the `.catch` fallback in
`scoreSkill` (src/unnamed/part_001 lines 103-114) substitutes
`{score: 0, max, error}` with NO `details` field, modelled by
`details = none`. -/
structure Component (δ : Type) where
  score : Int
  max : Nat
  details : Option δ
  error : Option String
deriving DecidableEq

/-- Issue counts by severity (src/unnamed/part_002 lines 78-83). -/
structure CiscoIssues where
  critical : Nat
  high : Nat
  medium : Nat
  low : Nat
deriving DecidableEq

/-- Shape of `details.clawdex` built in `analyzeSecurity`
(src/unnamed/part_002 lines 137-142). -/
structure ClawdexDetail where
  status : String
  score : Int
  max : Nat
  error : Option String
deriving DecidableEq

/-- Shape of `details.cisco` built in `analyzeSecurity`
(src/unnamed/part_002 lines 143-149). -/
structure CiscoDetail where
  score : Int
  max : Nat
  issues : CiscoIssues
  error : Option String
  scannerAvailable : Bool
deriving DecidableEq

/-- Security analyzer details (src/unnamed/part_002 lines 136-150). -/
structure SecDetails where
  clawdex : ClawdexDetail
  cisco : CiscoDetail
deriving DecidableEq

/-- Per-file documentation detail (src/unnamed/part_003 lines 92-113).
The success branch sets `{exists: true, length}` and never a `sufficient`
field, while the failure branch sets `sufficient: false`; the absent field is
modelled by `sufficient = none`.  (`exists` is a keyword in Lean, hence the
trailing underscore.) -/
structure DocFileDetail where
  exists_ : Bool
  length : Nat
  sufficient : Option Bool
deriving DecidableEq

/-- Documentation analyzer details (src/unnamed/part_003 lines 88-128). -/
structure DocsDetails where
  skillMd : DocFileDetail
  readmeMd : DocFileDetail
  examples : Bool
  references : Bool
deriving DecidableEq

/-- Shape of `details.secrets` (src/src/analyzers/code.js lines 171-180). -/
structure SecretsDetail where
  found : Nat
  clean : Bool
  samples : List String
deriving DecidableEq

/-- Shape of `details.errorHandling` (code.js lines 188-191); `ratio` is
`Math.round(errorHandlingRatio * 100)`, a natural number. -/
structure ErrorHandlingDetail where
  filesWithHandling : Nat
  ratio : Nat
deriving DecidableEq

/-- Shape of `details.comments` (code.js lines 199-201); `averageDensity` is
rounded to one decimal place, hence kept rational. -/
structure CommentsDetail where
  averageDensity : ℚ
deriving DecidableEq

/-- Shape of `details.naming` (code.js lines 209-212). -/
structure NamingDetail where
  filesWithGoodNaming : Nat
  ratio : Nat
deriving DecidableEq

/-- Code-quality analyzer details (code.js lines 165-212). -/
structure CodeDetails where
  analyzedFiles : Nat
  totalFiles : Nat
  secrets : SecretsDetail
  errorHandling : ErrorHandlingDetail
  comments : CommentsDetail
  naming : NamingDetail
deriving DecidableEq

/-- Shape of `details.git` (maintenance.js lines 95-100). -/
structure GitDetail where
  exists_ : Bool
deriving DecidableEq

/-- Shape of `details.lastCommit` when a commit date was obtained
(maintenance.js lines 116-120); the ISO date string is kept as the raw
epoch-milliseconds value it renders.  When no commit date exists the source
stores `{exists: false}`, i.e. an object without `daysAgo`, modelled as
`none` at the use site. -/
structure LastCommitDetail where
  dateMs : Int
  daysAgo : Int
  isRecent : Bool
deriving DecidableEq

/-- Shape of `details.version` (maintenance.js lines 126-135). -/
structure VersionDetail where
  exists_ : Bool
  version : Option String
  source : Option String
deriving DecidableEq

/-- Maintenance analyzer details (maintenance.js lines 92-135). -/
structure MaintDetails where
  git : GitDetail
  lastCommit : Option LastCommitDetail
  version : VersionDetail
deriving DecidableEq

/-- The four-category breakdown assembled in `scoreSkill`
(src/unnamed/part_001 lines 121-126). -/
structure Breakdown where
  security : Component SecDetails
  documentation : Component DocsDetails
  codeQuality : Component CodeDetails
  maintenance : Component MaintDetails
deriving DecidableEq

/-- Letter grade from the overall score (src/unnamed/part_001 lines 18-24). -/
def calculateGrade (score : Int) : String :=
  if score ≥ 90 then "A"
  else if score ≥ 80 then "B"
  else if score ≥ 70 then "C"
  else if score ≥ 60 then "D"
  else "F"

/-- JavaScript `v || d` for an optional string value: `undefined` and the
empty string are falsy. -/
def jsStringOr (v : Option String) (d : String) : String :=
  match v with
  | some s => if s = "" then d else s
  | none => d

/-- JavaScript `v || d` for an optional number value: `undefined` and `0`
are falsy. -/
def jsNumOr (v : Option Int) (d : Int) : Int :=
  match v with
  | some n => if n = 0 then d else n
  | none => d

/-- Outcome of the `fetch` call in `checkClawdex` (src/unnamed/part_002
lines 20-50): the request (or the subsequent `response.json()`) may throw,
the response may be non-2xx, or a JSON body is obtained whose `status`
field may be absent. -/
inductive ClawdexFetch where
  | fetchThrow (msg : String)
  | notOk (httpStatus : Nat)
  | okWith (status : Option String)

/-- Result of `checkClawdex` (src/unnamed/part_002 lines 20-50).  The raw
`details: data` field of the success branch is not read anywhere downstream
and is omitted. -/
structure ClawdexResult where
  status : String
  score : Int
  error : Option String
deriving DecidableEq

/-- Clawdex reputation lookup (src/unnamed/part_002 lines 20-50).  Note the
source computes the score as `scoreMap[status] || 10`: because `0` is falsy
in JavaScript, the `malicious` tier's mapped score `0` is replaced by the
fallback `10`; the embedding preserves this via `jsNumOr`. -/
def checkClawdex : ClawdexFetch → ClawdexResult
  | .notOk st =>
      { status := "unknown", score := 10, error := some s!"HTTP {st}" }
  | .okWith v =>
      let status := jsStringOr v "unknown"
      let mapped : Option Int :=
        if status = "benign" then some 20
        else if status = "unknown" then some 10
        else if status = "malicious" then some 0
        else none
      { status := status, score := jsNumOr mapped 10, error := none }
  | .fetchThrow msg =>
      { status := "error", score := 10, error := some msg }

/-- One finding in the scanner's JSON output; its `severity` field may be
absent (src/unnamed/part_002 lines 86-93). -/
structure Finding where
  severity : Option String
deriving DecidableEq

/-- Parsed shape of the scanner's stdout: either `JSON.parse` fails, or it
yields an object whose `findings` array may be absent. -/
inductive ScannerOut where
  | badJson
  | json (findings : Option (List Finding))

/-- Outcome of the `execAsync` invocation in `runCiscoScanner`
(src/unnamed/part_002 lines 57-117): the subprocess may be unavailable or
exit non-zero (`execThrow`), or produce stdout. -/
inductive CiscoExec where
  | execThrow (msg : String)
  | output (stdout : ScannerOut)

/-- Result of `runCiscoScanner`.  `rawResults` of the success branch is not
read anywhere downstream and is omitted; `scannerAvailable` is only set on
the catch branch, hence optional. -/
structure CiscoResult where
  score : Int
  issues : CiscoIssues
  error : Option String
  scannerAvailable : Option Bool
deriving DecidableEq

/-- Models `String.prototype.toLowerCase` (ASCII, which covers the severity
strings compared against). -/
def jsToLower (s : String) : String :=
  String.mk (s.data.map Char.toLower)

/-- Severity normalisation `(finding.severity || 'low').toLowerCase()`
(src/unnamed/part_002 line 88). -/
def normSeverity (f : Finding) : String :=
  jsToLower (jsStringOr f.severity "low")

/-- One step of the `forEach` counting loop (src/unnamed/part_002 lines
87-92): `issues.hasOwnProperty(severity)` means severities other than the
four keys are ignored. -/
def bumpIssue (iss : CiscoIssues) (sev : String) : CiscoIssues :=
  if sev = "critical" then { iss with critical := iss.critical + 1 }
  else if sev = "high" then { iss with high := iss.high + 1 }
  else if sev = "medium" then { iss with medium := iss.medium + 1 }
  else if sev = "low" then { iss with low := iss.low + 1 }
  else iss

/-- The severity-counting loop of `runCiscoScanner` starting from all-zero
counts (src/unnamed/part_002 lines 78-93). -/
def countIssues (findings : List Finding) : CiscoIssues :=
  findings.foldl (fun iss f => bumpIssue iss (normSeverity f)) ⟨0, 0, 0, 0⟩

/-- Cisco scanner invocation (src/unnamed/part_002 lines 57-117).  On a
parse failure the score is 15; on success the score starts at 20, loses
10/5/2/1 per critical/high/medium/low finding and is floored at 0
(`Math.max(0, score)`); if `exec` itself throws (scanner unavailable or
non-zero exit) the catch branch returns the fixed default 10. -/
def runCiscoScanner : CiscoExec → CiscoResult
  | .output .badJson =>
      { score := 15, issues := ⟨0, 0, 0, 0⟩,
        error := some "Scanner output parsing failed", scannerAvailable := none }
  | .output (.json findings) =>
      let issues := countIssues (findings.getD [])
      let score : Int :=
        max 0 (20 - (issues.critical : Int) * 10 - (issues.high : Int) * 5
                 - (issues.medium : Int) * 2 - (issues.low : Int) * 1)
      { score := score, issues := issues, error := none, scannerAvailable := none }
  | .execThrow msg =>
      { score := 10, issues := ⟨0, 0, 0, 0⟩,
        error := some msg, scannerAvailable := some false }

/-- Security analyzer (src/unnamed/part_002 lines 125-152): both external
sources are awaited, their scores summed, and a details record built.  The
success-path field `scannerAvailable: ciscoResult.scannerAvailable !== false`
evaluates to `true` when the field is absent. -/
def analyzeSecurity (cf : ClawdexFetch) (ce : CiscoExec) : Component SecDetails :=
  let clawdexResult := checkClawdex cf
  let ciscoResult := runCiscoScanner ce
  { score := clawdexResult.score + ciscoResult.score
    max := 40
    details := some
      { clawdex :=
          { status := clawdexResult.status, score := clawdexResult.score,
            max := 20, error := clawdexResult.error }
        cisco :=
          { score := ciscoResult.score, max := 20, issues := ciscoResult.issues,
            error := ciscoResult.error,
            scannerAvailable := ciscoResult.scannerAvailable != some false } }
    error := none }

/-- Observed state of one file probed by `analyzeDocs`
(src/unnamed/part_003 lines 15-35): `fileExists` distinguishes `absent`;
`readFileSafe` returns `null` for `unreadable` and the content otherwise. -/
inductive FileState where
  | absent
  | unreadable
  | readable (content : String)

/-- The `fileExists` probe (src/unnamed/part_003 lines 15-22). -/
def fileExists : FileState → Bool
  | .absent => false
  | _ => true

/-- The `readFileSafe` probe composed with the `exists ? read : null`
guards of `analyzeDocs` (src/unnamed/part_003 lines 29-35 and 83-86). -/
def fileContent : FileState → Option String
  | .readable s => some s
  | _ => none

/-- Whitespace as matched by the regex class `\s` (ASCII part; the Unicode
space characters it also covers do not occur in the patterns' contexts). -/
def isWsChar (c : Char) : Bool :=
  c = ' ' || c = '\t' || c = '\n' || c = '\r' || c = '\x0b' || c = '\x0c'

/-- Token of one of the fixed documentation regexes: a literal run of
characters, `\s*`, or `\s+`. -/
inductive PatTok where
  | lit (s : String)
  | wsStar
  | wsPlus

/-- Matches a literal character run at the head of the input, returning the
rest. -/
def matchLit : List Char → List Char → Option (List Char)
  | [], cs => some cs
  | _ :: _, [] => none
  | p :: ps, c :: cs => if p = c then matchLit ps cs else none

/-- Matches a token sequence at the head of the input.  `\s*` and `\s+` are
taken with maximal munch; in every pattern below they are followed by a
literal starting with a non-whitespace character, for which greedy matching
is equivalent to the regex semantics. -/
def matchToks : List PatTok → List Char → Bool
  | [], _ => true
  | .lit s :: ts, cs =>
      match matchLit s.data cs with
      | some rest => matchToks ts rest
      | none => false
  | .wsStar :: ts, cs => matchToks ts (cs.dropWhile isWsChar)
  | .wsPlus :: ts, cs =>
      match cs with
      | [] => false
      | c :: rest => isWsChar c && matchToks ts (rest.dropWhile isWsChar)

/-- Unanchored regex search: the token sequence may match at any position. -/
def searchToks (ts : List PatTok) : List Char → Bool
  | [] => matchToks ts []
  | c :: cs => matchToks ts (c :: cs) || searchToks ts cs

/-- Case-insensitive unanchored test of one pattern against the content,
modelling `/pat/i.test(content)` for the fixed lowercase patterns below. -/
def testPat (ts : List PatTok) (content : String) : Bool :=
  searchToks ts (jsToLower content).data

/-- Section detector `hasExamples` (src/unnamed/part_003 lines 42-51).  The
patterns are `/##\s*examples?/i`, `/##\s*usage/i`, `/##\s*how\s+to\s+use/i`
and a plain code-fence search; an optional trailing `s?` is dropped since an
unanchored test for `examples?` succeeds exactly when one for `example`
does.  The `if (!content) return false` guard is the empty-string truthiness
test. -/
def hasExamples (content : String) : Bool :=
  if content = "" then false
  else
    testPat [.lit "##", .wsStar, .lit "example"] content ||
    testPat [.lit "##", .wsStar, .lit "usage"] content ||
    testPat [.lit "##", .wsStar, .lit "how", .wsPlus, .lit "to", .wsPlus, .lit "use"] content ||
    testPat [.lit "```"] content

/-- Section detector `hasReferences` (src/unnamed/part_003 lines 58-67):
patterns `/##\s*references?/i`, `/##\s*links?/i`, `/##\s*see\s+also/i`,
`/##\s*resources?/i`. -/
def hasReferences (content : String) : Bool :=
  if content = "" then false
  else
    testPat [.lit "##", .wsStar, .lit "reference"] content ||
    testPat [.lit "##", .wsStar, .lit "link"] content ||
    testPat [.lit "##", .wsStar, .lit "see", .wsPlus, .lit "also"] content ||
    testPat [.lit "##", .wsStar, .lit "resource"] content

/-- Documentation analyzer (src/unnamed/part_003 lines 74-135).  Scoring:
SKILL.md present, truthy and longer than 500 characters earns 10 points and
a `skillMd` detail WITHOUT a `sufficient` field; otherwise the detail
carries `sufficient: false`.  README.md likewise with threshold 300 for 5
points.  The examples and references sections are detected on the
concatenation of both contents (3 and 2 points). -/
def analyzeDocs (skillFile readmeFile : FileState) : Component DocsDetails :=
  let skillMdExists := fileExists skillFile
  let readmeExists := fileExists readmeFile
  let skillContent := fileContent skillFile
  let readmeContent := fileContent readmeFile
  let skillStr := skillContent.getD ""
  let readmeStr := readmeContent.getD ""
  let skillOk := skillMdExists && skillStr ≠ "" && skillStr.length > 500
  let readmeOk := readmeExists && readmeStr ≠ "" && readmeStr.length > 300
  let skillMdDetail : DocFileDetail :=
    if skillOk then { exists_ := true, length := skillStr.length, sufficient := none }
    else { exists_ := skillMdExists, length := skillStr.length, sufficient := some false }
  let readmeMdDetail : DocFileDetail :=
    if readmeOk then { exists_ := true, length := readmeStr.length, sufficient := none }
    else { exists_ := readmeExists, length := readmeStr.length, sufficient := some false }
  let combinedContent := skillStr ++ readmeStr
  let hasExamplesSection := hasExamples combinedContent
  let hasReferencesSection := hasReferences combinedContent
  { score :=
      (if skillOk then 10 else 0) + (if readmeOk then 5 else 0) +
      (if hasExamplesSection then 3 else 0) + (if hasReferencesSection then 2 else 0)
    max := 20
    details := some
      { skillMd := skillMdDetail, readmeMd := readmeMdDetail,
        examples := hasExamplesSection, references := hasReferencesSection }
    error := none }

/-- A civil calendar instant in the fields JavaScript `Date` exposes:
`getFullYear`, `getMonth` (0-based), `getDate` (1-based), plus the
milliseconds elapsed within the day. -/
structure Instant where
  year : Nat
  jsMonth : Nat
  day : Nat
  msOfDay : Int
deriving DecidableEq

/-- Milliseconds per day. -/
def msPerDay : Int := 86400000

/-- Days from the Unix epoch to the civil date `year-month-day` (month
1-based), by the standard proleptic-Gregorian formula, valid for the years
of interest (`year ≥ 1`).  The formula is linear in `day`, which is exactly
how JavaScript `Date` normalises an out-of-range day-of-month. -/
def civilDays (year month day : Nat) : Int :=
  let y := if month ≤ 2 then year - 1 else year
  let era := y / 400
  let yoe := y - era * 400
  let mp := if month > 2 then month - 3 else month + 9
  let doy := (153 * mp + 2) / 5 + day - 1
  let doe := yoe * 365 + yoe / 4 - yoe / 100 + doy
  (era * 146097 + doe : Int) - 719468

/-- Epoch milliseconds of an instant (`Date.prototype.getTime`). -/
def Instant.toMs (t : Instant) : Int :=
  civilDays t.year (t.jsMonth + 1) t.day * msPerDay + t.msOfDay

/-- The computation `sixMonthsAgo.setMonth(sixMonthsAgo.getMonth() - 6)` of
`analyzeMaintenance` (maintenance.js lines 104-105): the month index is
decremented by 6 with a year borrow; day and time-of-day are kept, and a
day-of-month that overflows the target month rolls forward exactly as the
linear `civilDays` does. -/
def sixMonthsAgoOf (now : Instant) : Instant :=
  if now.jsMonth ≥ 6 then { now with jsMonth := now.jsMonth - 6 }
  else { year := now.year - 1, jsMonth := now.jsMonth + 6,
         day := now.day, msOfDay := now.msOfDay }

/-- Result of `checkVersionInfo` (maintenance.js lines 51-79), passed in as
the observed outcome of its file probes. -/
structure VersionInfo where
  hasVersion : Bool
  version : Option String
  source : Option String
deriving DecidableEq

/-- Maintenance analyzer (maintenance.js lines 86-142), as a function of the
observed probe outcomes: `isGit` is the `.git` existence check, `gitLogMs`
the epoch milliseconds of `git log -1 --format=%ct` (`none` when the query
fails; it is only consulted when `isGit` holds, per line 88), `vi` the
version-info probe, and `now` the current instant.  A git directory earns 5
points; a last commit strictly after the calendar instant six months ago
earns 10; version info earns 5.  `daysAgo` is
`Math.floor((Date.now() - lastCommit.getTime()) / 86400000)`. -/
def analyzeMaintenance (now : Instant) (isGit : Bool) (gitLogMs : Option Int)
    (vi : VersionInfo) : Component MaintDetails :=
  let lastCommit := if isGit then gitLogMs else none
  let sixMonthsAgo := sixMonthsAgoOf now
  let recencyInfo : Option LastCommitDetail :=
    match lastCommit with
    | some lc =>
        some { dateMs := lc
               daysAgo := (now.toMs - lc).fdiv msPerDay
               isRecent := lc > sixMonthsAgo.toMs }
    | none => none
  let recencyScore : Int :=
    match recencyInfo with
    | some info => if info.isRecent then 10 else 0
    | none => 0
  { score := (if isGit then 5 else 0) + recencyScore + (if vi.hasVersion then 5 else 0)
    max := 20
    details := some
      { git := { exists_ := isGit }
        lastCommit := recencyInfo
        version :=
          if vi.hasVersion then
            { exists_ := true, version := vi.version, source := vi.source }
          else { exists_ := false, version := none, source := none } }
    error := none }

/-- JavaScript comparison `v?.field > d` where the optional chain may yield
`undefined`: a comparison against `undefined` is false. -/
def jsGtOpt (v : Option Int) (d : Int) : Bool :=
  match v with
  | some n => decide (n > d)
  | none => false

/-- Recommendation generator (src/unnamed/part_001 lines 31-87), translated
condition by condition in source order.  The accesses
`breakdown.security.details.clawdex`, `breakdown.documentation.details.skillMd`,
`breakdown.codeQuality.details.secrets` and `breakdown.maintenance.details.git`
apply no optional chaining at the `details` level, so when a category carries
the catch-fallback object (no `details`) the function throws a `TypeError`,
modelled as `Except.error`.  The `else if` of the SKILL.md rule is flattened
into two mutually exclusive conditions.  `!skillMd?.sufficient` is a
truthiness test: an absent `sufficient` field and `false` both trigger it. -/
def generateRecommendations (breakdown : Breakdown) : Except String (List String) :=
  match breakdown.security.details with
  | none => Except.error "TypeError"
  | some sec =>
    match breakdown.documentation.details with
    | none => Except.error "TypeError"
    | some docd =>
      match breakdown.codeQuality.details with
      | none => Except.error "TypeError"
      | some codd =>
        match breakdown.maintenance.details with
        | none => Except.error "TypeError"
        | some maintd =>
          let criticalCount := sec.cisco.issues.critical
          let highCount := sec.cisco.issues.high
          let secretsFound := codd.secrets.found
          let lcDaysAgo := (maintd.lastCommit.map (·.daysAgo)).getD 0
          Except.ok (
            (if sec.clawdex.status == "malicious" then
              ["⚠️ CRITICAL: Skill flagged as malicious by Clawdex - DO NOT USE"] else []) ++
            (if decide (sec.cisco.issues.critical > 0) then
              [s!"Fix {criticalCount} critical security issue(s)"] else []) ++
            (if decide (sec.cisco.issues.high > 0) then
              [s!"Address {highCount} high-severity issue(s)"] else []) ++
            (if !docd.skillMd.exists_ then
              ["Add SKILL.md file with usage documentation"] else []) ++
            (if docd.skillMd.exists_ && !(docd.skillMd.sufficient.getD false) then
              ["Expand SKILL.md content (currently < 500 characters)"] else []) ++
            (if !docd.examples then
              ["Add examples or usage section to documentation"] else []) ++
            (if !docd.references then
              ["Add references section with related links/resources"] else []) ++
            (if decide (codd.secrets.found > 0) then
              [s!"⚠️ Remove {secretsFound} hardcoded secret(s)"] else []) ++
            (if decide (codd.errorHandling.ratio < 30) then
              ["Improve error handling coverage in code"] else []) ++
            (if decide (codd.comments.averageDensity < 10) then
              ["Add more code comments and documentation"] else []) ++
            (if !maintd.git.exists_ then
              ["Initialize git repository for version control"] else []) ++
            (if jsGtOpt (maintd.lastCommit.map (·.daysAgo)) 180 then
              [s!"Update repository (last commit {lcDaysAgo} days ago)"] else []) ++
            (if !maintd.version.exists_ then
              ["Add version information (package.json, CHANGELOG, or VERSION file)"] else []))

/-- The same thirteen (condition, message) pairs of `generateRecommendations`
as a declarative, priority-ordered rule table, following §4.3 of the spec:
the emitted list must be exactly the messages of the satisfied rules, in this
fixed order. -/
def recRules (sec : SecDetails) (docd : DocsDetails) (codd : CodeDetails)
    (maintd : MaintDetails) : List (Bool × String) :=
  let criticalCount := sec.cisco.issues.critical
  let highCount := sec.cisco.issues.high
  let secretsFound := codd.secrets.found
  let lcDaysAgo := (maintd.lastCommit.map (·.daysAgo)).getD 0
  [(sec.clawdex.status == "malicious",
      "⚠️ CRITICAL: Skill flagged as malicious by Clawdex - DO NOT USE"),
   (decide (sec.cisco.issues.critical > 0),
      s!"Fix {criticalCount} critical security issue(s)"),
   (decide (sec.cisco.issues.high > 0),
      s!"Address {highCount} high-severity issue(s)"),
   (!docd.skillMd.exists_,
      "Add SKILL.md file with usage documentation"),
   (docd.skillMd.exists_ && !(docd.skillMd.sufficient.getD false),
      "Expand SKILL.md content (currently < 500 characters)"),
   (!docd.examples,
      "Add examples or usage section to documentation"),
   (!docd.references,
      "Add references section with related links/resources"),
   (decide (codd.secrets.found > 0),
      s!"⚠️ Remove {secretsFound} hardcoded secret(s)"),
   (decide (codd.errorHandling.ratio < 30),
      "Improve error handling coverage in code"),
   (decide (codd.comments.averageDensity < 10),
      "Add more code comments and documentation"),
   (!maintd.git.exists_,
      "Initialize git repository for version control"),
   (jsGtOpt (maintd.lastCommit.map (·.daysAgo)) 180,
      s!"Update repository (last commit {lcDaysAgo} days ago)"),
   (!maintd.version.exists_,
      "Add version information (package.json, CHANGELOG, or VERSION file)")]

/-- Security segment of the rule table (rules 1-3). -/
def ruleSegA (sec : SecDetails) : List (Bool × String) :=
  let criticalCount := sec.cisco.issues.critical
  let highCount := sec.cisco.issues.high
  [(sec.clawdex.status == "malicious",
      "⚠️ CRITICAL: Skill flagged as malicious by Clawdex - DO NOT USE"),
   (decide (sec.cisco.issues.critical > 0),
      s!"Fix {criticalCount} critical security issue(s)"),
   (decide (sec.cisco.issues.high > 0),
      s!"Address {highCount} high-severity issue(s)")]

/-- SKILL.md segment of the rule table: the two mutually exclusive branches
of the flattened `else if`. -/
def ruleSegB (docd : DocsDetails) : List (Bool × String) :=
  [(!docd.skillMd.exists_,
      "Add SKILL.md file with usage documentation"),
   (docd.skillMd.exists_ && !(docd.skillMd.sufficient.getD false),
      "Expand SKILL.md content (currently < 500 characters)")]

/-- Sections and code-quality segment of the rule table (rules 6-10). -/
def ruleSegC (docd : DocsDetails) (codd : CodeDetails) : List (Bool × String) :=
  let secretsFound := codd.secrets.found
  [(!docd.examples,
      "Add examples or usage section to documentation"),
   (!docd.references,
      "Add references section with related links/resources"),
   (decide (codd.secrets.found > 0),
      s!"⚠️ Remove {secretsFound} hardcoded secret(s)"),
   (decide (codd.errorHandling.ratio < 30),
      "Improve error handling coverage in code"),
   (decide (codd.comments.averageDensity < 10),
      "Add more code comments and documentation")]

/-- Git-and-recency segment of the rule table (rules 11-12): mutually
exclusive on analyzer-producible details. -/
def ruleSegD (maintd : MaintDetails) : List (Bool × String) :=
  let lcDaysAgo := (maintd.lastCommit.map (·.daysAgo)).getD 0
  [(!maintd.git.exists_,
      "Initialize git repository for version control"),
   (jsGtOpt (maintd.lastCommit.map (·.daysAgo)) 180,
      s!"Update repository (last commit {lcDaysAgo} days ago)")]

/-- Version segment of the rule table (rule 13). -/
def ruleSegE (maintd : MaintDetails) : List (Bool × String) :=
  [(!maintd.version.exists_,
      "Add version information (package.json, CHANGELOG, or VERSION file)")]

/-- The engine's result record (src/unnamed/part_001 lines 131-141).  The
wall-clock readings `Date.now()` at start and end are passed in; the ISO
`scannedAt` string is kept as the epoch-milliseconds value it renders. -/
structure ScoreResult where
  skill : String
  path : String
  scannedAtMs : Int
  scanDurationMs : Int
  overallScore : Int
  maxScore : Nat
  grade : String
  breakdown : Breakdown
  recommendations : List String
deriving DecidableEq

/-- Node's `basename`, modelled for ordinary non-root paths: the last
nonempty `/`-separated segment. -/
def jsBasename (p : String) : String :=
  ((p.splitOn "/").filter (fun s => s != "")).getLast?.getD p

/-- The `.catch(err => ({score: 0, max, error: err.message}))` wrapper
applied to each analyzer invocation (src/unnamed/part_001 lines 103-114):
a rejection is replaced by a zero-score object that carries the failure
message but NO `details` field. -/
def catchComponent {δ : Type} (m : Nat) : Except String (Component δ) → Component δ
  | .ok c => c
  | .error msg => { score := 0, max := m, details := none, error := some msg }

/-- The engine operation `scoreSkill` (src/unnamed/part_001 lines 95-142) as
a function of the four analyzer outcomes (an `Except.error` models an
analyzer invocation that rejects outside its own contract).  Each outcome
passes through its `.catch` wrapper, the four scores are summed, the grade
computed, and the recommendations generated; `scoreSkill` itself installs no
try/catch around `generateRecommendations`, so an error there is the
engine call's own rejection.  `scoreSkill` performs no path validation of
its own: `basename` never throws on a string. -/
def scoreSkillCore (skillPath : String) (skillName : Option String)
    (startMs endMs : Int)
    (security0 : Except String (Component SecDetails))
    (documentation0 : Except String (Component DocsDetails))
    (codeQuality0 : Except String (Component CodeDetails))
    (maintenance0 : Except String (Component MaintDetails)) :
    Except String ScoreResult :=
  let name := match skillName with
    | some s => if s = "" then jsBasename skillPath else s
    | none => jsBasename skillPath
  let security := catchComponent 40 security0
  let documentation := catchComponent 20 documentation0
  let codeQuality := catchComponent 20 codeQuality0
  let maintenance := catchComponent 20 maintenance0
  let overallScore := security.score + documentation.score +
                      codeQuality.score + maintenance.score
  let breakdown : Breakdown :=
    { security := security, documentation := documentation,
      codeQuality := codeQuality, maintenance := maintenance }
  match generateRecommendations breakdown with
  | .error e => Except.error e
  | .ok recommendations =>
      Except.ok
        { skill := name
          path := skillPath
          scannedAtMs := startMs
          scanDurationMs := endMs - startMs
          overallScore := overallScore
          maxScore := 100
          grade := calculateGrade overallScore
          breakdown := breakdown
          recommendations := recommendations }

/-- The CLI's grade-to-exit-status table (src/unnamed/part_000 line 140). -/
def exitCodes : List (String × Nat) := [("A", 0), ("B", 0), ("C", 0), ("D", 1), ("F", 1)]

/-- JavaScript property lookup `table[key]` on the object literal above. -/
def jsLookup (table : List (String × Nat)) (k : String) : Option Nat :=
  (table.find? (fun p => p.1 == k)).map (·.2)

/-- JavaScript `v || d` for an optional natural number: `undefined` and `0`
are falsy. -/
def jsNatOr (v : Option Nat) (d : Nat) : Nat :=
  match v with
  | some n => if n = 0 then d else n
  | none => d

/-- The CLI's exit status on a completed scan:
`process.exit(exitCodes[result.grade] || 1)` (src/unnamed/part_000
line 141). -/
def exitCodeForGrade (g : String) : Nat :=
  jsNatOr (jsLookup exitCodes g) 1

/-- Number of findings whose normalised severity equals `sev`. -/
def sevCount (findings : List Finding) (sev : String) : Nat :=
  findings.countP (fun f => normSeverity f == sev)

/-- A fixed successful security component used as a concrete analyzer
outcome in evaluations: Clawdex says benign (20), the scanner found one
medium issue (18). -/
def sampleSecDetails : SecDetails :=
  { clawdex := { status := "benign", score := 20, max := 20, error := none }
    cisco := { score := 18, max := 20, issues := ⟨0, 0, 1, 0⟩,
               error := none, scannerAvailable := true } }

/-- Wrapper component for `sampleSecDetails`. -/
def sampleSecOk : Component SecDetails :=
  { score := 38, max := 40, details := some sampleSecDetails, error := none }

/-- A fixed successful documentation component: a sufficient SKILL.md
(10 points) plus an examples section (3 points). -/
def sampleDocsDetails : DocsDetails :=
  { skillMd := { exists_ := true, length := 800, sufficient := none }
    readmeMd := { exists_ := false, length := 0, sufficient := some false }
    examples := true
    references := false }

/-- Wrapper component for `sampleDocsDetails`. -/
def sampleDocsOk : Component DocsDetails :=
  { score := 13, max := 20, details := some sampleDocsDetails, error := none }

/-- A fixed successful code-quality component. -/
def sampleCodeDetails : CodeDetails :=
  { analyzedFiles := 3
    totalFiles := 4
    secrets := { found := 0, clean := true, samples := [] }
    errorHandling := { filesWithHandling := 2, ratio := 67 }
    comments := { averageDensity := 12 }
    naming := { filesWithGoodNaming := 3, ratio := 100 } }

/-- Wrapper component for `sampleCodeDetails`. -/
def sampleCodeOk : Component CodeDetails :=
  { score := 15, max := 20, details := some sampleCodeDetails, error := none }

/-- A fixed successful maintenance component: git repository with a recent
commit and version information. -/
def sampleMaintDetails : MaintDetails :=
  { git := { exists_ := true }
    lastCommit := some { dateMs := 1750000000000, daysAgo := 10, isRecent := true }
    version := { exists_ := true, version := some "1.0.0", source := some "package.json" } }

/-- Wrapper component for `sampleMaintDetails`. -/
def sampleMaintOk : Component MaintDetails :=
  { score := 20, max := 20, details := some sampleMaintDetails, error := none }

/-- Placeholder result used only as the default of `Option.getD` when
projecting an engine run already known to succeed. -/
def dummyScoreResult : ScoreResult :=
  { skill := "", path := "", scannedAtMs := 0, scanDurationMs := 0,
    overallScore := 0, maxScore := 100, grade := "F",
    breakdown :=
      { security := { score := 0, max := 40, details := none, error := none }
        documentation := { score := 0, max := 20, details := none, error := none }
        codeQuality := { score := 0, max := 20, details := none, error := none }
        maintenance := { score := 0, max := 20, details := none, error := none } }
    recommendations := [] }

/-- Concrete engine run with four successful analyzers. -/
def sampleRun : Except String ScoreResult :=
  scoreSkillCore "/skills/demo" (some "demo") 100 250
    (Except.ok sampleSecOk) (Except.ok sampleDocsOk)
    (Except.ok sampleCodeOk) (Except.ok sampleMaintOk)

/-- The result record of `sampleRun`. -/
def sampleResult : ScoreResult := sampleRun.toOption.getD dummyScoreResult

/-- Concrete engine run in which the reputation lookup failed with a network
error and the scanner invocation also failed. -/
def doubleFailureRun : Except String ScoreResult :=
  scoreSkillCore "/skills/demo" none 100 250
    (Except.ok (analyzeSecurity (.fetchThrow "fetch failed") (.execThrow "spawn ENOENT")))
    (Except.ok sampleDocsOk) (Except.ok sampleCodeOk) (Except.ok sampleMaintOk)

/-- The result record of `doubleFailureRun`. -/
def doubleFailureResult : ScoreResult := doubleFailureRun.toOption.getD dummyScoreResult

/-- A SKILL.md content of 501 characters, strictly over the 500-character
threshold. -/
def skillMd501 : String := String.mk (List.replicate 501 'a')

/-- Documentation component produced by the analyzer on a directory whose
SKILL.md holds `skillMd501` and which has no README.md. -/
def sufficientDocsComponent : Component DocsDetails :=
  analyzeDocs (.readable skillMd501) .absent

/-- Recommendations of a scan whose documentation analysis saw the
501-character SKILL.md. -/
def sufficientDocsRecs : List String :=
  (generateRecommendations
    { security := sampleSecOk, documentation := sufficientDocsComponent,
      codeQuality := sampleCodeOk, maintenance := sampleMaintOk }).toOption.getD []

/-- A current instant of 2026-10-11T00:00:00Z. -/
def octNow : Instant := { year := 2026, jsMonth := 9, day := 11, msOfDay := 0 }

/-- A last-commit timestamp exactly 181 days before `octNow`
(2026-04-13): six calendar months before 2026-10-11 is 2026-04-11,
183 days earlier, so this commit is inside the calendar window yet more
than 180 days old. -/
def staleCommitMs : Int := octNow.toMs - 181 * msPerDay

/-- Maintenance component for a git repository whose last commit is
`staleCommitMs` and which has no version information. -/
def staleMaintComponent : Component MaintDetails :=
  analyzeMaintenance octNow true (some staleCommitMs) ⟨false, none, none⟩

/-- Recommendations of a scan with the `staleMaintComponent` maintenance
breakdown. -/
def staleMaintRecs : List String :=
  (generateRecommendations
    { security := sampleSecOk, documentation := sampleDocsOk,
      codeQuality := sampleCodeOk, maintenance := staleMaintComponent }).toOption.getD []

/-! Theorems.  Each claim of the specification is settled by one theorem
below; shared helper lemmas precede them. -/

/-- C3: the grade function is total and non-overlapping on the integers
0..100: exactly one of A/B/C/D/F is assigned, with A iff score ≥ 90,
B iff 80 ≤ score < 90, C iff 70 ≤ score < 80, D iff 60 ≤ score < 70 and
F iff score < 60. -/
theorem calculateGrade_thresholds (s : Int) (h0 : 0 ≤ s) (h1 : s ≤ 100) :
    (calculateGrade s = "A" ∨ calculateGrade s = "B" ∨ calculateGrade s = "C" ∨
     calculateGrade s = "D" ∨ calculateGrade s = "F") ∧
    (calculateGrade s = "A" ↔ 90 ≤ s) ∧
    (calculateGrade s = "B" ↔ 80 ≤ s ∧ s < 90) ∧
    (calculateGrade s = "C" ↔ 70 ≤ s ∧ s < 80) ∧
    (calculateGrade s = "D" ↔ 60 ≤ s ∧ s < 70) ∧
    (calculateGrade s = "F" ↔ s < 60) := by
  unfold calculateGrade
  split_ifs with hA hB hC hD <;>
    refine ⟨?_, ?_, ?_, ?_, ?_, ?_⟩ <;>
    first
    | exact Or.inl rfl
    | exact Or.inr (Or.inl rfl)
    | exact Or.inr (Or.inr (Or.inl rfl))
    | exact Or.inr (Or.inr (Or.inr (Or.inl rfl)))
    | exact Or.inr (Or.inr (Or.inr (Or.inr rfl)))
    | (constructor <;> intro h <;>
        first
        | omega
        | rfl
        | exact absurd h (by decide))

/-- Witness for C3 at the concrete score 85: grade B, inside the bounds. -/
theorem calculateGrade_thresholds_witness :
    (calculateGrade 85 = "A" ∨ calculateGrade 85 = "B" ∨ calculateGrade 85 = "C" ∨
     calculateGrade 85 = "D" ∨ calculateGrade 85 = "F") ∧
    (calculateGrade 85 = "A" ↔ 90 ≤ (85 : Int)) ∧
    (calculateGrade 85 = "B" ↔ 80 ≤ (85 : Int) ∧ (85 : Int) < 90) ∧
    (calculateGrade 85 = "C" ↔ 70 ≤ (85 : Int) ∧ (85 : Int) < 80) ∧
    (calculateGrade 85 = "D" ↔ 60 ≤ (85 : Int) ∧ (85 : Int) < 70) ∧
    (calculateGrade 85 = "F" ↔ (85 : Int) < 60) :=
  calculateGrade_thresholds 85 (by decide) (by decide)

/-- C9: the CLI computes `process.exit(exitCodes[result.grade] || 1)`, and
because the exit status 0 stored for A, B and C is falsy in JavaScript, the
`|| 1` fallback replaces it: every grade, failing or not, yields exit
status 1, contradicting the claimed non-failing → 0 mapping while the
`exitCodes` table itself records the intended 0. -/
theorem exitCode_always_one :
    exitCodeForGrade "A" = 1 ∧ exitCodeForGrade "B" = 1 ∧ exitCodeForGrade "C" = 1 ∧
    exitCodeForGrade "D" = 1 ∧ exitCodeForGrade "F" = 1 ∧
    jsLookup exitCodes "A" = some 0 ∧ jsLookup exitCodes "B" = some 0 ∧
    jsLookup exitCodes "C" = some 0 := by
  decide

/-- C1: when an analyzer invocation rejects, the `.catch` wrapper does
substitute the zero-score object carrying the failure message, but that
object has no `details` field; `generateRecommendations` then dereferences
`details` without optional chaining and the whole scan rejects with a
TypeError instead of returning a ScoreResult: the claimed partial-failure
isolation does not hold. -/
theorem analyzer_rejection_aborts_scan :
    catchComponent 40 (Except.error "boom" : Except String (Component SecDetails)) =
      { score := 0, max := 40, details := none, error := some "boom" } ∧
    catchComponent 20 (Except.ok sampleDocsOk) = sampleDocsOk ∧
    catchComponent 20 (Except.ok sampleCodeOk) = sampleCodeOk ∧
    catchComponent 20 (Except.ok sampleMaintOk) = sampleMaintOk ∧
    scoreSkillCore "/skills/demo" none 100 250 (Except.error "boom")
      (Except.ok sampleDocsOk) (Except.ok sampleCodeOk) (Except.ok sampleMaintOk) =
      Except.error "TypeError" := by
  exact ⟨rfl, rfl, rfl, rfl, rfl⟩

/-- C6: an individual analyzer failure does surface as an engine-level
failure: with a rejecting documentation analyzer (a valid, readable target
path), `scoreSkill` itself rejects with the TypeError raised inside
`generateRecommendations`, contradicting the claim that the engine only
fails when the target path cannot be resolved. -/
theorem docs_rejection_engine_failure :
    scoreSkillCore "/skills/demo" none 100 250 (Except.ok sampleSecOk)
      (Except.error "EACCES: permission denied")
      (Except.ok sampleCodeOk) (Except.ok sampleMaintOk) =
      Except.error "TypeError" := by
  exact rfl

/-- The severity-counting fold of `runCiscoScanner` computes, from any
starting counts, the per-severity occurrence counts of the findings list. -/
theorem countIssues_fold (findings : List Finding) :
    ∀ init : CiscoIssues,
      findings.foldl (fun iss f => bumpIssue iss (normSeverity f)) init =
        { critical := init.critical + sevCount findings "critical"
          high := init.high + sevCount findings "high"
          medium := init.medium + sevCount findings "medium"
          low := init.low + sevCount findings "low" } := by
  induction findings with
  | nil => intro init; simp [sevCount]
  | cons f t ih =>
      intro init
      simp only [List.foldl_cons, ih, sevCount, List.countP_cons]
      unfold bumpIssue
      split_ifs with h1 h2 h3 h4 <;>
        simp_all [CiscoIssues.mk.injEq] <;> omega

/-- C8: on scanner output listing findings, the static-scan sub-score is
`max(0, 20 - 10*critical - 5*high - 2*medium - 1*low)` where the counts are
of the findings' normalised severities; when the scanner executable is
unavailable or exits non-zero (the exec call throws), the sub-score is the
fixed default 10. -/
theorem runCiscoScanner_score (findings : List Finding) (msg : String) :
    (runCiscoScanner (.output (.json (some findings)))).score =
      max 0 (20 - 10 * (sevCount findings "critical" : Int)
               - 5 * (sevCount findings "high" : Int)
               - 2 * (sevCount findings "medium" : Int)
               - (sevCount findings "low" : Int)) ∧
    (runCiscoScanner (.execThrow msg)).score = 10 := by
  constructor
  · simp only [runCiscoScanner, countIssues, Option.getD_some]
    rw [countIssues_fold]
    simp only [Nat.zero_add]
    omega
  · rfl

/-- C2: whenever the four analyzer outcomes succeed with scores inside
their category bounds (security in [0,40], the others in [0,20]) and the
engine run returns a result, its `overallScore` is the sum of the four
component scores, lies in [0,100], and `maxScore` is the constant 100. -/
theorem scoreSkill_overall (p : String) (n : Option String) (t0 t1 : Int)
    (S : Component SecDetails) (D : Component DocsDetails)
    (C : Component CodeDetails) (M : Component MaintDetails) (r : ScoreResult)
    (hS : 0 ≤ S.score ∧ S.score ≤ 40) (hD : 0 ≤ D.score ∧ D.score ≤ 20)
    (hC : 0 ≤ C.score ∧ C.score ≤ 20) (hM : 0 ≤ M.score ∧ M.score ≤ 20)
    (hrun : scoreSkillCore p n t0 t1 (Except.ok S) (Except.ok D) (Except.ok C)
      (Except.ok M) = Except.ok r) :
    r.overallScore = S.score + D.score + C.score + M.score ∧
    0 ≤ r.overallScore ∧ r.overallScore ≤ 100 ∧ r.maxScore = 100 := by
  unfold scoreSkillCore at hrun
  simp only [catchComponent] at hrun
  split at hrun
  · exact absurd hrun (by simp)
  · simp only [Except.ok.injEq] at hrun
    subst hrun
    refine ⟨rfl, ?_, ?_, rfl⟩ <;> dsimp only <;> omega

/-- Witness for C2: the sample run's overall score is 38+13+15+20 = 86,
inside [0,100], with maxScore 100. -/
theorem scoreSkill_overall_witness :
    sampleResult.overallScore =
      sampleSecOk.score + sampleDocsOk.score + sampleCodeOk.score + sampleMaintOk.score ∧
    0 ≤ sampleResult.overallScore ∧ sampleResult.overallScore ≤ 100 ∧
    sampleResult.maxScore = 100 :=
  scoreSkill_overall "/skills/demo" (some "demo") 100 250
    sampleSecOk sampleDocsOk sampleCodeOk sampleMaintOk sampleResult
    (by decide) (by decide) (by decide) (by decide) rfl

/-- C7: when the reputation lookup fails with a network error and the
scanner invocation also fails, the security analyzer still returns a
component (it is a total function) whose score is exactly 10 + 10 = 20 with
its details present, and any completed scan using it has a well-defined
overall score that is non-negative whenever the other three component
scores are. -/
theorem security_double_failure (netMsg execMsg p : String) (n : Option String)
    (t0 t1 : Int) (D : Component DocsDetails) (C : Component CodeDetails)
    (M : Component MaintDetails) (r : ScoreResult)
    (hD : 0 ≤ D.score) (hC : 0 ≤ C.score) (hM : 0 ≤ M.score)
    (hrun : scoreSkillCore p n t0 t1
      (Except.ok (analyzeSecurity (.fetchThrow netMsg) (.execThrow execMsg)))
      (Except.ok D) (Except.ok C) (Except.ok M) = Except.ok r) :
    (analyzeSecurity (.fetchThrow netMsg) (.execThrow execMsg)).score = 20 ∧
    (analyzeSecurity (.fetchThrow netMsg) (.execThrow execMsg)).details.isSome = true ∧
    r.overallScore = 20 + D.score + C.score + M.score ∧ 0 ≤ r.overallScore := by
  have hsec : (analyzeSecurity (.fetchThrow netMsg) (.execThrow execMsg)).score = 20 := rfl
  unfold scoreSkillCore at hrun
  simp only [catchComponent] at hrun
  split at hrun
  · exact absurd hrun (by simp)
  · simp only [Except.ok.injEq] at hrun
    subst hrun
    refine ⟨hsec, rfl, ?_, ?_⟩ <;> dsimp only <;> rw [hsec] <;> omega

/-- Witness for C7: the double-failure run returns a result with security
score 20 and overall score 20+13+15+20 = 68 ≥ 0. -/
theorem security_double_failure_witness :
    (analyzeSecurity (.fetchThrow "fetch failed") (.execThrow "spawn ENOENT")).score = 20 ∧
    (analyzeSecurity (.fetchThrow "fetch failed") (.execThrow "spawn ENOENT")).details.isSome = true ∧
    doubleFailureResult.overallScore =
      20 + sampleDocsOk.score + sampleCodeOk.score + sampleMaintOk.score ∧
    0 ≤ doubleFailureResult.overallScore :=
  security_double_failure "fetch failed" "spawn ENOENT" "/skills/demo" none 100 250
    sampleDocsOk sampleCodeOk sampleMaintOk doubleFailureResult
    (by decide) (by decide) (by decide) rfl

/-- The conditional-cons fold over the rule table equals the fold that
appends a conditional singleton per rule. -/
theorem foldr_cons_eq_append (l : List (Bool × String)) :
    l.foldr (fun p acc => if p.1 then p.2 :: acc else acc) [] =
      l.foldr (fun p acc => (if p.1 then [p.2] else []) ++ acc) [] := by
  induction l with
  | nil => rfl
  | cons p t ih =>
      rcases p with ⟨c, m⟩
      cases c <;> simp [ih]

/-- Keeping the messages of the satisfied rules equals the conditional-cons
fold over the rule table. -/
theorem filterMapSnd_foldr (l : List (Bool × String)) :
    ((l.filter fun p => p.1).map fun p => p.2) =
      l.foldr (fun p acc => if p.1 then p.2 :: acc else acc) [] := by
  induction l with
  | nil => rfl
  | cons p t ih =>
      rcases p with ⟨c, m⟩
      cases c <;> simp [ih]

/-- C5: on a breakdown where all four details are present,
`generateRecommendations` returns exactly the messages of the satisfied
rules of the fixed, priority-ordered rule table `recRules`, in table order
(so every satisfied rule is silent and the emitted strings follow the fixed
priority sequence); under the maintenance invariant that a recorded
last-commit age implies the git directory exists (which `analyzeMaintenance`
always establishes), the list has at most 11 entries. -/
theorem recommendations_priority_order
    (S : Component SecDetails) (D : Component DocsDetails)
    (C : Component CodeDetails) (M : Component MaintDetails)
    (sec : SecDetails) (docd : DocsDetails) (codd : CodeDetails)
    (maintd : MaintDetails)
    (hS : S.details = some sec) (hD : D.details = some docd)
    (hC : C.details = some codd) (hM : M.details = some maintd)
    (hinv : ∀ lc, maintd.lastCommit = some lc → maintd.git.exists_ = true) :
    generateRecommendations
        { security := S, documentation := D, codeQuality := C, maintenance := M } =
      Except.ok (((recRules sec docd codd maintd).filter fun p => p.1).map fun p => p.2) ∧
    (((recRules sec docd codd maintd).filter fun p => p.1).map fun p => p.2).length ≤ 11 := by
  constructor
  · rw [filterMapSnd_foldr, foldr_cons_eq_append]
    unfold generateRecommendations
    dsimp only
    rw [hS, hD, hC, hM]
    dsimp only
    simp only [recRules, List.foldr_cons, List.foldr_nil,
      List.append_assoc, List.append_nil]
  · rw [List.length_map, ← List.countP_eq_length_filter]
    rw [show recRules sec docd codd maintd =
        ruleSegA sec ++ (ruleSegB docd ++ (ruleSegC docd codd ++
          (ruleSegD maintd ++ ruleSegE maintd))) from rfl]
    simp only [List.countP_append]
    have hA : List.countP (fun p => p.1) (ruleSegA sec) ≤ 3 :=
      le_trans (List.countP_le_length _) (by simp [ruleSegA])
    have hB : List.countP (fun p => p.1) (ruleSegB docd) ≤ 1 := by
      simp only [ruleSegB, List.countP_cons, List.countP_nil]
      cases hE : docd.skillMd.exists_ <;> simp [hE] <;> split_ifs <;> omega
    have hC : List.countP (fun p => p.1) (ruleSegC docd codd) ≤ 5 :=
      le_trans (List.countP_le_length _) (by simp [ruleSegC])
    have hD : List.countP (fun p => p.1) (ruleSegD maintd) ≤ 1 := by
      simp only [ruleSegD, List.countP_cons, List.countP_nil]
      rcases hLC : maintd.lastCommit with _ | lc
      · simp [jsGtOpt] <;> split_ifs <;> omega
      · simp [jsGtOpt, hinv lc hLC] <;> split_ifs <;> omega
    have hE : List.countP (fun p => p.1) (ruleSegE maintd) ≤ 1 :=
      le_trans (List.countP_le_length _) (by simp [ruleSegE])
    omega

/-- The maintenance analyzer always establishes the invariant used above:
its details record a last-commit age only when the git directory exists
(maintenance.js line 88 consults `git log` only when `.git` is present). -/
theorem analyzeMaintenance_invariant (now : Instant) (g : Bool)
    (ms : Option Int) (vi : VersionInfo) (d : MaintDetails)
    (hd : (analyzeMaintenance now g ms vi).details = some d) :
    ∀ lc, d.lastCommit = some lc → d.git.exists_ = true := by
  intro lc hlc
  cases g <;> cases ms <;>
    (simp only [analyzeMaintenance, Option.some.injEq] at hd;
     subst hd; simp_all)

/-- Witness for C5 on the sample breakdown (whose maintenance details do
satisfy the invariant). -/
theorem recommendations_priority_order_witness :
    (generateRecommendations
        { security := sampleSecOk, documentation := sampleDocsOk,
          codeQuality := sampleCodeOk, maintenance := sampleMaintOk } =
      Except.ok (((recRules sampleSecDetails sampleDocsDetails sampleCodeDetails
        sampleMaintDetails).filter fun p => p.1).map fun p => p.2)) ∧
    (((recRules sampleSecDetails sampleDocsDetails sampleCodeDetails
        sampleMaintDetails).filter fun p => p.1).map fun p => p.2).length ≤ 11 :=
  recommendations_priority_order sampleSecOk sampleDocsOk sampleCodeOk sampleMaintOk
    sampleSecDetails sampleDocsDetails sampleCodeDetails sampleMaintDetails
    rfl rfl rfl rfl (fun _ _ => rfl)

/-- C4: on a SKILL.md of 501 characters (present and over the 500-character
threshold) the documentation analyzer awards the 10 points, yet because its
success branch never writes `sufficient: true`, the truthiness test
`!skillMd?.sufficient` in the recommendation generator still fires: the
"Expand SKILL.md" string is emitted (with its false "currently < 500
characters" text) although the claim requires neither string; only the
"Add SKILL.md" string is correctly absent. -/
theorem docs_sufficient_expand_bug :
    sufficientDocsComponent.score = 10 ∧
    sufficientDocsComponent.details.map (fun d => d.skillMd.exists_) = some true ∧
    sufficientDocsComponent.details.map (fun d => d.skillMd.length) = some 501 ∧
    sufficientDocsComponent.details.map (fun d => d.skillMd.sufficient) = some none ∧
    "Expand SKILL.md content (currently < 500 characters)" ∈ sufficientDocsRecs ∧
    "Add SKILL.md file with usage documentation" ∉ sufficientDocsRecs := by
  refine ⟨rfl, rfl, rfl, rfl, ?_, ?_⟩ <;> decide

/-- C10: with the current instant 2026-10-11T00:00:00Z and a last commit
exactly 181 days earlier (2026-04-13), the commit lies after the calendar
instant six months ago (2026-04-11, 183 days earlier), so the maintenance
analyzer awards the 10-point recency bonus (score 5+10+0 = 15) while the
recommendation generator's strict 180-day rule simultaneously emits the
"Update repository" string for the same breakdown. -/
theorem recency_window_mismatch :
    staleMaintComponent.score = 15 ∧
    staleMaintComponent.details.map (fun d => d.lastCommit.map (fun lc => lc.isRecent)) =
      some (some true) ∧
    staleMaintComponent.details.map (fun d => d.lastCommit.map (fun lc => lc.daysAgo)) =
      some (some 181) ∧
    "Update repository (last commit 181 days ago)" ∈ staleMaintRecs := by
  refine ⟨?_, ?_, ?_, ?_⟩ <;> decide

end SkillScorecard
